import Mathlib

/-!
# Verification development for the `phrasecollector-yt` transcription service

Shallow embedding of `src/main.py`: a FastAPI handler that accepts either an
uploaded media file or a video URL, converts the audio to WAV, transcribes it
with a speech-recognition backend, and cleans up its temporary files.

The filesystem is modelled as an association list from path strings to byte
lists.  External collaborators (pydub decoding, yt-dlp downloading, the Google
speech recognizer, and the possibility of `open` raising) are modelled as an
environment of oracles; the code under `src/main.py` is translated faithfully
around them.
-/

set_option autoImplicit false

namespace PhraseCollector

/-- File contents: a list of bytes (values irrelevant to the control flow). -/
abbrev Content := List Nat

/-- Filesystem paths are plain strings, as in the Python source. -/
abbrev Path := String

/-- `UPLOAD_DIR = "temp_uploads"` (src/main.py line 25). -/
def UPLOAD_DIR : String := "temp_uploads"

/-! ## Path helpers (`os.path`) -/

/-- `os.path.basename` (POSIX): the part of the path after the last `/`. -/
def basenameStr (p : String) : String :=
  String.mk ((p.data.reverse.takeWhile (fun c => c != '/')).reverse)

/-- The directory part of a path, including the trailing `/` (empty when the
path has no separator); used to rebuild `os.path.splitext`'s root. -/
def dirPartStr (p : String) : String :=
  String.mk ((p.data.reverse.dropWhile (fun c => c != '/')).reverse)

/-- `os.path.splitext` restricted to a basename: split off the extension at the
last dot, except that dots leading the name do not start an extension
(so `".txt"` has no extension, `"a..txt"` splits as `("a.", ".txt")`). -/
def splitExtBase (b : String) : String × String :=
  let r := b.data.reverse
  let post := r.takeWhile (fun c => c != '.')
  if post.length == r.length then (b, "")
  else
    let pre := r.drop (post.length + 1)
    if pre.any (fun c => c != '.') then
      (String.mk pre.reverse, String.mk ('.' :: post.reverse))
    else (b, "")

/-- `os.path.splitext` on a full path: the split happens inside the basename. -/
def splitExt (p : String) : String × String :=
  let be := splitExtBase (basenameStr p)
  (dirPartStr p ++ be.1, be.2)

/-- `os.path.join` (POSIX) for two components.  (Implemented over the char
list so that it evaluates inside the kernel.) -/
def path_join (a b : String) : String :=
  if b.data.head? == some '/' then b
  else if a == "" || a.data.getLast? == some '/' then a ++ b
  else a ++ "/" ++ b

/-- `str.lower` on ASCII strings. -/
def lowerStr (s : String) : String := String.mk (s.data.map Char.toLower)

/-- `os.path.normpath` for relative POSIX paths: drop empty and `.` components
and resolve `..` against preceding components.  Used only to express what a
computed path points at; not part of the translated source. -/
def splitOnChar (sep : Char) : List Char → List (List Char)
  | [] => [[]]
  | c :: rest =>
    match splitOnChar sep rest with
    | [] => [[c]]
    | h :: t => if c == sep then [] :: h :: t else (c :: h) :: t

def normpathRel (p : String) : String :=
  let comps := (splitOnChar '/' p.data).map String.mk
  let step : List String → String → List String := fun st c =>
    if c == "" || c == "." then st
    else if c == ".." then
      match st with
      | [] => [".."]
      | top :: rest => if top == ".." then c :: top :: rest else rest
    else c :: st
  match (comps.foldl step []).reverse with
  | [] => "."
  | x :: xs => xs.foldl (fun acc y => acc ++ "/" ++ y) x

/-! ## Filesystem model -/

/-- A flat filesystem: an association list from full paths to contents.
Later entries for the same path are shadowed by `write`'s filtering. -/
structure FS where
  files : List (Path × Content)
  deriving Repr, DecidableEq

/-- `os.path.exists`. -/
def FS.existsPath (fs : FS) (p : Path) : Bool :=
  fs.files.any (fun e => e.1 == p)

/-- `open(p, "wb")` followed by writing `c`: truncate/create and replace. -/
def FS.write (fs : FS) (p : Path) (c : Content) : FS :=
  FS.mk ((p, c) :: fs.files.filter (fun e => e.1 != p))

/-- Remove the entry at `p` (the effect of a successful `os.remove`). -/
def FS.removeP (fs : FS) (p : Path) : FS :=
  FS.mk (fs.files.filter (fun e => e.1 != p))

/-- Read the contents stored at `p`. -/
def FS.read (fs : FS) (p : Path) : Option Content :=
  (fs.files.find? (fun e => e.1 == p)).map (fun e => e.2)

/-- `os.remove`: raises (`FileNotFoundError`) when the path is absent. -/
def os_remove (fs : FS) (p : Path) : Except String FS :=
  if fs.existsPath p then Except.ok (fs.removeP p)
  else Except.error "FileNotFoundError"

/-- `os.listdir UPLOAD_DIR`: names (not paths) of entries directly inside
`dir`, in filesystem order.  Only files exist in this model. -/
def FS.listdir (fs : FS) (dir : Path) : List String :=
  fs.files.filterMap (fun e =>
    if (dir ++ "/").data.isPrefixOf e.1.data then
      let rest := e.1.data.drop (dir ++ "/").data.length
      if rest.contains '/' || rest.isEmpty then none else some (String.mk rest)
    else none)

/-! ## A small regular-expression engine (Brzozowski derivatives)

`is_valid_url` (src/main.py lines 183-191) compiles a concrete regular
expression with `re.IGNORECASE` and tests it with `re.match`.  We embed the
regex as an abstract syntax tree and decide language membership with
Brzozowski derivatives, which is structurally recursive and therefore
evaluates inside the kernel.  The pattern is anchored on both sides (`re.match`
plus a final `$`), so matching is whole-string membership, with `$` also
accepting just before one final newline. -/

inductive RE where
  | eps : RE
  | cls (p : Char → Bool) : RE
  | seq (a b : RE) : RE
  | alt (a b : RE) : RE
  | star (r : RE) : RE

/-- Does `r` accept the empty string? -/
def nullable : RE → Bool
  | RE.eps => true
  | RE.cls _ => false
  | RE.seq a b => nullable a && nullable b
  | RE.alt a b => nullable a || nullable b
  | RE.star _ => true

/-- The regex accepting nothing. -/
def voidRE : RE := RE.cls (fun _ => false)

/-- Brzozowski derivative of `r` with respect to the character `c`. -/
def deriv : RE → Char → RE
  | RE.eps, _ => voidRE
  | RE.cls p, c => if p c then RE.eps else voidRE
  | RE.seq a b, c =>
    if nullable a then RE.alt (RE.seq (deriv a c) b) (deriv b c)
    else RE.seq (deriv a c) b
  | RE.alt a b, c => RE.alt (deriv a c) (deriv b c)
  | RE.star r, c => RE.seq (deriv r c) (RE.star r)

/-- Whole-string membership of `s` in the language of `r`. -/
def reAccepts (r : RE) (s : List Char) : Bool :=
  nullable (s.foldl deriv r)

/-- A literal character, compared case-insensitively (`re.IGNORECASE`). -/
def chr (c : Char) : RE := RE.cls (fun x => x.toLower == c.toLower)

/-- A literal string of case-insensitive characters. -/
def strRE (s : String) : RE := s.data.foldr (fun c r => RE.seq (chr c) r) RE.eps

/-- `r?` -/
def opt (r : RE) : RE := RE.alt r RE.eps

/-- `r+` -/
def plus (r : RE) : RE := RE.seq r (RE.star r)

/-- `r{0,n}` -/
def repUpTo (r : RE) : Nat → RE
  | 0 => RE.eps
  | n+1 => RE.alt (RE.seq r (repUpTo r n)) RE.eps

/-- `[A-Z0-9]` under `re.IGNORECASE` (ASCII letters and digits). -/
def alnumC : RE := RE.cls (fun c => c.isAlpha || c.isDigit)

/-- `[A-Z0-9-]` under `re.IGNORECASE`. -/
def alnumDashC : RE := RE.cls (fun c => c.isAlpha || c.isDigit || c == '-')

/-- `[A-Z]` under `re.IGNORECASE`. -/
def alphaC : RE := RE.cls Char.isAlpha

/-- `\d` -/
def digitC : RE := RE.cls Char.isDigit

/-- `\S`: anything but whitespace. -/
def nonSpaceC : RE :=
  RE.cls (fun c => !(c == ' ' || c == '\t' || c == '\n' || c == '\r'
    || c == '\x0b' || c == '\x0c'))

/-- `(?:http|ftp)s?://` -/
def schemeRE : RE :=
  RE.seq (RE.alt (strRE "http") (strRE "ftp")) (RE.seq (opt (chr 's')) (strRE "://"))

/-- One domain label with its trailing dot: `[A-Z0-9](?:[A-Z0-9-]{0,61}[A-Z0-9])?\.` -/
def labelRE : RE :=
  RE.seq alnumC (RE.seq (opt (RE.seq (repUpTo alnumDashC 61) alnumC)) (chr '.'))

/-- The final domain component: `(?:[A-Z]{2,6}\.?|[A-Z0-9-]{2,}\.?)` -/
def tldRE : RE :=
  RE.alt
    (RE.seq alphaC (RE.seq alphaC (RE.seq (repUpTo alphaC 4) (opt (chr '.')))))
    (RE.seq alnumDashC (RE.seq alnumDashC (RE.seq (RE.star alnumDashC) (opt (chr '.')))))

/-- `\d{1,3}` -/
def ipOctetRE : RE := RE.seq digitC (repUpTo digitC 2)

/-- `\d{1,3}\.\d{1,3}\.\d{1,3}\.\d{1,3}` -/
def ipRE : RE :=
  RE.seq ipOctetRE (RE.seq (chr '.') (RE.seq ipOctetRE
    (RE.seq (chr '.') (RE.seq ipOctetRE (RE.seq (chr '.') ipOctetRE)))))

/-- The host alternative: domain labels, `localhost`, or dotted-quad IP. -/
def hostRE : RE :=
  RE.alt (RE.seq (plus labelRE) tldRE) (RE.alt (strRE "localhost") ipRE)

/-- `(?::\d+)?` -/
def portRE : RE := opt (RE.seq (chr ':') (plus digitC))

/-- `(?:/?|[/?]\S+)` -/
def tailRE : RE :=
  RE.alt (opt (chr '/'))
    (RE.seq (RE.cls (fun c => c == '/' || c == '?')) (plus nonSpaceC))

/-- The body of the pattern of `is_valid_url` (everything between the `^`
implied by `re.match` and the final `$`). -/
def urlRE : RE :=
  RE.seq schemeRE (RE.seq hostRE (RE.seq portRE tailRE))

/-- `is_valid_url` (src/main.py lines 183-191): `re.match` of the anchored URL
regex.  The final `$` accepts at the end of the string, or just before one
final newline. -/
def is_valid_url (url : String) : Bool :=
  reAccepts urlRE url.data
    || (url.data.getLast? == some '\n' && reAccepts urlRE url.data.dropLast)

/-! ## External collaborators as oracles -/

/-- Outcome of `yt_dlp.YoutubeDL(...).extract_info(url, download=True)` plus
`prepare_filename`: either an exception, or the prepared filename together
with the files the backend wrote into the filesystem. -/
inductive YdlOutcome where
  | raises (e : String)
  | ok (downloaded_file : Path) (created : List (Path × Content))
  deriving Repr, DecidableEq

/-- Outcome of the Google speech-recognition call (including any exception
from opening/recording the audio file, which the same `try` block catches). -/
inductive RecogOutcome where
  | success (t : String)
  | unknownValue
  | requestError (e : String)
  | otherError (e : String)
  deriving Repr, DecidableEq

/-- The oracles for everything `src/main.py` delegates to collaborators:
pydub decoding/exporting, yt-dlp downloading, the speech recognizer, and the
possibility that either of the two `open(temp_file_path, "wb")` blocks raises
(`writeOutcome1` is the first save block at lines 43-45, `writeOutcome2` the
duplicated one at lines 48-50; `none` means the write succeeds). -/
structure Env where
  decodeOk : Path → Bool
  wavBytes : Path → Content
  ydl : String → YdlOutcome
  recog : Path → RecogOutcome
  writeOutcome1 : Path → Option String
  writeOutcome2 : Path → Option String

/-! ## Events

A trace of the observable operations each claim talks about: invoking the
downloader, invoking the converter, the downloader's internal deletion of the
intermediate file, and the final cleanup's deletions. -/

inductive Ev where
  | downloadCall (url : String)
  | convertCall (p : Path)
  | dlRemove (p : Path)
  | removeEv (p : Path)
  deriving Repr, DecidableEq

/-- Is this event a cleanup deletion of `p`? -/
def isRemoveOf (p : Path) : Ev → Bool
  | Ev.removeEv q => q == p
  | _ => false

/-- How many times the cleanup step deleted `p`. -/
def removeCount (evs : List Ev) (p : Path) : Nat :=
  evs.countP (isRemoveOf p)

/-! ## `convert_to_wav` (src/main.py lines 98-118) -/

/-- The audio extension allow-list (line 105). -/
def audio_exts : List String := [".mp3", ".wav", ".ogg", ".flac", ".aac"]

/-- The video extension allow-list (line 107). -/
def video_exts : List String := [".mp4", ".mov", ".avi", ".mkv"]

/-- Is `e` in the allow-list?  Both branches call `AudioSegment.from_file`
identically, so the two `elif` arms collapse to one test. -/
def supportedExt (e : String) : Bool :=
  audio_exts.contains e || video_exts.contains e

/-- Line 103: `os.path.join(UPLOAD_DIR, f"{os.path.basename(file_path).split('.')[0]}.wav")`.
`split('.')[0]` keeps only the part of the base name before the first dot. -/
def output_wav_path (file_path : Path) : Path :=
  path_join UPLOAD_DIR
    (String.mk ((basenameStr file_path).data.takeWhile (fun c => c != '.')) ++ ".wav")

/-- `convert_to_wav`: checks the lower-cased extension against the allow-list,
then decodes and exports; any exception (including a missing input file) is
caught and yields `none`.  Returns the produced path and the filesystem. -/
def convert_to_wav (env : Env) (fs : FS) (file_path : Path) : Option Path × FS :=
  let file_extension := lowerStr (splitExt file_path).2
  if supportedExt file_extension then
    if fs.existsPath file_path && env.decodeOk file_path then
      let out := output_wav_path file_path
      (some out, fs.write out (env.wavBytes file_path))
    else (none, fs)
  else (none, fs)

/-! ## `download_audio_from_url` (src/main.py lines 120-161) -/

/-- The filesystem after yt-dlp wrote the files it `created`. -/
def ydlFS (created : List (Path × Content)) (fs : FS) : FS :=
  created.foldl (fun f pc => f.write pc.1 pc.2) fs

/-- The name-matching heuristic of lines 145-148: the first entry of the temp
directory whose name starts with the downloaded item's base name and ends in
`.wav`. -/
def findWavFor (fs : FS) (downloaded_file : Path) : Option String :=
  let bn := basenameStr (splitExt downloaded_file).1
  (fs.listdir UPLOAD_DIR).find?
    (fun f => bn.data.isPrefixOf f.data && ".wav".data.isSuffixOf f.data)

/-- `download_audio_from_url`: run yt-dlp; search the temp directory for its
direct WAV output; otherwise fall back to `convert_to_wav` on the downloaded
file and then `os.remove` that file if it (still) exists.  Any exception from
yt-dlp is caught and yields `none`.  Also returns the event trace. -/
def download_audio_from_url (env : Env) (fs : FS) (url : String) :
    Option Path × FS × List Ev :=
  match env.ydl url with
  | YdlOutcome.raises _ => (none, fs, [])
  | YdlOutcome.ok downloaded_file created =>
    let fs1 := ydlFS created fs
    match findWavFor fs1 downloaded_file with
    | some f => (some (path_join UPLOAD_DIR f), fs1, [])
    | none =>
      let res := convert_to_wav env fs1 downloaded_file
      if res.2.existsPath downloaded_file then
        (res.1, res.2.removeP downloaded_file,
          [Ev.convertCall downloaded_file, Ev.dlRemove downloaded_file])
      else
        (res.1, res.2, [Ev.convertCall downloaded_file])

/-! ## `transcribe_audio` (src/main.py lines 163-181) -/

/-- Exceptions the recognition attempt can raise. -/
inductive RecogExn where
  | unknownValueError
  | requestError (e : String)
  | otherExn (e : String)
  deriving Repr, DecidableEq

/-- The body of `transcribe_audio`'s `try` block: load the file and call
`recognize_google`, which may raise. -/
def recognize_google (rec : Path → RecogOutcome) (p : Path) : Except RecogExn String :=
  match rec p with
  | RecogOutcome.success t => Except.ok t
  | RecogOutcome.unknownValue => Except.error RecogExn.unknownValueError
  | RecogOutcome.requestError e => Except.error (RecogExn.requestError e)
  | RecogOutcome.otherError e => Except.error (RecogExn.otherExn e)

/-- `transcribe_audio`: every exception is caught and mapped to a plain
result string, so the function always returns text. -/
def transcribe_audio (rec : Path → RecogOutcome) (audio_file_path : Path) : String :=
  match recognize_google rec audio_file_path with
  | Except.ok t => t
  | Except.error RecogExn.unknownValueError =>
    "Google Speech Recognition could not understand audio"
  | Except.error (RecogExn.requestError e) =>
    "Could not request results from Google Speech Recognition service; " ++ e
  | Except.error (RecogExn.otherExn e) =>
    "Error during transcription: " ++ e

/-! ## `transcribe_audio_video` (src/main.py lines 33-96) -/

/-- The Python-level exceptions the `try` body can raise: `HTTPException`
with a status code and detail, or any other exception. -/
inductive PyExn where
  | http (status : Nat) (detail : String)
  | other (e : String)
  deriving Repr, DecidableEq

/-- An uploaded file: the client-supplied filename and the upload's bytes. -/
structure Upload where
  filename : String
  content : Content
  deriving Repr, DecidableEq

/-- The upload's `file.file` object: a byte stream with a read position.
Starlette leaves it at position 0 when the handler starts. -/
structure ByteStream where
  data : Content
  pos : Nat
  deriving Repr, DecidableEq

/-- `shutil.copyfileobj(file.file, buffer)` reads everything from the current
position to the end and leaves the stream at the end. -/
def ByteStream.readAll (s : ByteStream) : Content × ByteStream :=
  (s.data.drop s.pos, ByteStream.mk s.data s.data.length)

/-- What the `try` block (lines 40-75) produced: the transcription result or
the exception, the values of `temp_file_path` and `audio_file_path` at the
moment control reached `finally`, the filesystem, and the event trace. -/
structure TryOut where
  res : Except PyExn String
  temp : Option Path
  audio : Option Path
  fs : FS
  evs : List Ev

/-- The `try` body of the handler.  The upload branch saves the file TWICE
(the duplicated block at lines 47-50): the second `open(..., "wb")` truncates
the file and `copyfileobj` re-reads from the now-exhausted upload stream, so
the second write stores the empty remainder.  The URL branch first tests
Python truthiness of `video_url` (absent or empty string means "not
provided"), then URL validity, then downloads.  `transcribe_audio` never
raises, so the only exception sources are the four `HTTPException`s and the
save-to-disk writes. -/
def pipelineTry (env : Env) (fs : FS) (file : Option Upload)
    (video_url : Option String) : TryOut :=
  match file with
  | some up =>
    let temp_file_path := path_join UPLOAD_DIR up.filename
    match env.writeOutcome1 temp_file_path with
    | some e => TryOut.mk (Except.error (PyExn.other e)) (some temp_file_path) none fs []
    | none =>
      let stream0 := ByteStream.mk up.content 0
      let read1 := stream0.readAll
      let fs1 := fs.write temp_file_path read1.1
      match env.writeOutcome2 temp_file_path with
      | some e =>
        TryOut.mk (Except.error (PyExn.other e)) (some temp_file_path) none fs1 []
      | none =>
        let read2 := read1.2.readAll
        let fs2 := fs1.write temp_file_path read2.1
        let conv := convert_to_wav env fs2 temp_file_path
        match conv.1 with
        | none =>
          TryOut.mk (Except.error (PyExn.http 400 "Could not convert file to audio."))
            (some temp_file_path) none conv.2 [Ev.convertCall temp_file_path]
        | some audio_file_path =>
          TryOut.mk (Except.ok (transcribe_audio env.recog audio_file_path))
            (some temp_file_path) (some audio_file_path) conv.2
            [Ev.convertCall temp_file_path]
  | none =>
    match video_url with
    | some u =>
      if u == "" then
        TryOut.mk (Except.error (PyExn.http 400 "No file or video URL provided."))
          none none fs []
      else if is_valid_url u then
        let dl := download_audio_from_url env fs u
        match dl.1 with
        | none =>
          TryOut.mk
            (Except.error (PyExn.http 400 "Could not download audio from the provided URL."))
            none none dl.2.1 (Ev.downloadCall u :: dl.2.2)
        | some audio_file_path =>
          TryOut.mk (Except.ok (transcribe_audio env.recog audio_file_path))
            none (some audio_file_path) dl.2.1 (Ev.downloadCall u :: dl.2.2)
      else
        TryOut.mk (Except.error (PyExn.http 400 "Invalid URL provided."))
          none none fs []
    | none =>
      TryOut.mk (Except.error (PyExn.http 400 "No file or video URL provided."))
        none none fs []

/-- One guarded deletion of the `finally` block (lines 85-90): remove the
path only when it is set and the file exists, so deleting an already-absent
path is a no-op and `os.remove` is never called on a missing file. -/
def cleanupOne (fs : FS) (p? : Option Path) : Except String (FS × List Ev) :=
  match p? with
  | none => Except.ok (fs, [])
  | some p =>
    if fs.existsPath p then
      match os_remove fs p with
      | Except.ok fs2 => Except.ok (fs2, [Ev.removeEv p])
      | Except.error e => Except.error e
    else Except.ok (fs, [])

/-- The whole `finally` cleanup: first `temp_file_path`, then
`audio_file_path`. -/
def finallyCleanup (fs : FS) (temp? audio? : Option Path) :
    Except String (FS × List Ev) :=
  match cleanupOne fs temp? with
  | Except.error e => Except.error e
  | Except.ok r1 =>
    match cleanupOne r1.1 audio? with
    | Except.error e => Except.error e
    | Except.ok r2 => Except.ok (r2.1, r1.2 ++ r2.2)

/-- The rendered response: `TemplateResponse` is an HTTP 200 carrying the
transcribed text and the optional error message. -/
structure Response where
  status : Nat
  transcribed_text : String
  error_message : Option String
  deriving Repr, DecidableEq

/-- Assemble the handler's response from the `try` outcome: caught
`HTTPException`s surface as their detail, other exceptions as a generic
message; then the `finally` block cleans up and returns the template
response with status 200.  An exception from cleanup itself would escape the
handler (`Except.error`). -/
def assemble (r : TryOut) : Except String (Response × FS × List Ev) :=
  let transcribed_text := match r.res with
    | Except.ok t => t
    | Except.error _ => ""
  let error_message := match r.res with
    | Except.ok _ => none
    | Except.error (PyExn.http _ d) => some d
    | Except.error (PyExn.other e) => some ("An unexpected error occurred: " ++ e)
  match finallyCleanup r.fs r.temp r.audio with
  | Except.error e => Except.error e
  | Except.ok p =>
    Except.ok (Response.mk 200 transcribed_text error_message, p.1, r.evs ++ p.2)

/-- The `POST /transcribe` handler `transcribe_audio_video`. -/
def transcribe_audio_video (env : Env) (fs : FS) (file : Option Upload)
    (video_url : Option String) : Except String (Response × FS × List Ev) :=
  assemble (pipelineTry env fs file video_url)

/-! ## Accessors over the handler result (with inert defaults for the
never-taken error case) -/

/-- Did the handler return a rendered response (rather than raising)? -/
def isOkResp (x : Except String (Response × FS × List Ev)) : Bool :=
  match x with
  | Except.ok _ => true
  | Except.error _ => false

/-- The rendered response. -/
def respOf (x : Except String (Response × FS × List Ev)) : Response :=
  match x with
  | Except.ok y => y.1
  | Except.error _ => Response.mk 0 "" none

/-- The filesystem when the handler returns. -/
def fsOf (x : Except String (Response × FS × List Ev)) : FS :=
  match x with
  | Except.ok y => y.2.1
  | Except.error _ => FS.mk []

/-- The event trace of the request. -/
def evsOf (x : Except String (Response × FS × List Ev)) : List Ev :=
  match x with
  | Except.ok y => y.2.2
  | Except.error _ => []

/-! ## Basic filesystem lemmas -/

theorem existsPath_write (fs : FS) (q : Path) (c : Content) (p : Path) :
    (fs.write q c).existsPath p = (p == q || fs.existsPath p) := by
  show ((q, c) :: fs.files.filter (fun e => e.1 != q)).any (fun e => e.1 == p)
      = (p == q || fs.files.any (fun e => e.1 == p))
  by_cases h : p = q
  · subst h
    simp
  · have hq : (q == p) = false := beq_eq_false_iff_ne.mpr (fun hh => h hh.symm)
    have hp : (p == q) = false := beq_eq_false_iff_ne.mpr h
    simp only [List.any_cons, hq, List.any_filter, hp, Bool.false_or]
    induction fs.files with
    | nil => rfl
    | cons e t ih =>
      by_cases he : e.1 = p
      · subst he
        have : (e.1 != q) = true := bne_iff_ne.mpr h
        simp [List.any_cons, this, ih]
      · have : (e.1 == p) = false := beq_eq_false_iff_ne.mpr he
        simp [List.any_cons, this, ih]

theorem existsPath_removeP (fs : FS) (q : Path) (p : Path) :
    (fs.removeP q).existsPath p = (!(p == q) && fs.existsPath p) := by
  show (fs.files.filter (fun e => e.1 != q)).any (fun e => e.1 == p)
      = (!(p == q) && fs.files.any (fun e => e.1 == p))
  by_cases h : p = q
  · subst h
    simp only [beq_self_eq_true, Bool.not_true, Bool.false_and, List.any_filter]
    induction fs.files with
    | nil => rfl
    | cons e t ih =>
      by_cases he : e.1 = p
      · subst he
        simp [List.any_cons, ih]
      · have : (e.1 == p) = false := beq_eq_false_iff_ne.mpr he
        simp [List.any_cons, this, ih]
  · have hp : (p == q) = false := beq_eq_false_iff_ne.mpr h
    simp only [hp, Bool.not_false, Bool.true_and, List.any_filter]
    induction fs.files with
    | nil => rfl
    | cons e t ih =>
      by_cases he : e.1 = p
      · subst he
        have : (e.1 != q) = true := bne_iff_ne.mpr h
        simp [List.any_cons, this, ih]
      · have : (e.1 == p) = false := beq_eq_false_iff_ne.mpr he
        simp [List.any_cons, this, ih]

/-! ## Cleanup lemmas -/

theorem removeCount_nil (p : Path) : removeCount [] p = 0 := rfl

theorem removeCount_append (a b : List Ev) (p : Path) :
    removeCount (a ++ b) p = removeCount a p + removeCount b p :=
  List.countP_append _ a b

theorem removeCount_single (q p : Path) :
    removeCount [Ev.removeEv q] p = (if q = p then 1 else 0) := by
  simp [removeCount, List.countP_cons, isRemoveOf, beq_iff_eq]

/-- Turn a Bool hypothesis that is not `true` into `= false`. -/
theorem bool_not_true {b : Bool} (h : ¬ b = true) : b = false := by
  cases b
  · rfl
  · exact absurd rfl h

/-- `cleanupOne` never raises, removes the path when it is present, and is a
no-op when it is absent. -/
theorem cleanupOne_spec (fs : FS) (p? : Option Path) :
    ∃ fs2 evs, cleanupOne fs p? = Except.ok (fs2, evs) ∧
      (∀ p, p? = some p →
        fs2.existsPath p = false ∧
        evs = (if fs.existsPath p then [Ev.removeEv p] else []) ∧
        fs2 = (if fs.existsPath p then fs.removeP p else fs)) ∧
      (p? = none → fs2 = fs ∧ evs = []) := by
  match p? with
  | none => exact ⟨fs, [], rfl, by simp, fun _ => ⟨rfl, rfl⟩⟩
  | some p =>
    by_cases h : fs.existsPath p = true
    · refine ⟨fs.removeP p, [Ev.removeEv p], ?_, ?_, by simp⟩
      · simp [cleanupOne, os_remove, h]
      · intro q hq
        cases hq
        refine ⟨?_, by simp [h], by simp [h]⟩
        rw [existsPath_removeP]
        simp
    · have h' : fs.existsPath p = false := by
        cases hx : fs.existsPath p
        · rfl
        · exact absurd hx h
      refine ⟨fs, [], ?_, ?_, by simp⟩
      · simp [cleanupOne, h']
      · intro q hq
        cases hq
        exact ⟨h', by simp [h'], by simp [h']⟩

/-- The whole `finally` block never raises; afterwards neither artifact path
exists, and each artifact path was deleted exactly once if it existed when
cleanup started (and zero times otherwise). -/
theorem finallyCleanup_spec (fs : FS) (t? a? : Option Path) :
    ∃ fs2 evs, finallyCleanup fs t? a? = Except.ok (fs2, evs) ∧
      ∀ p, (t? = some p ∨ a? = some p) →
        fs2.existsPath p = false ∧
        removeCount evs p = (if fs.existsPath p then 1 else 0) := by
  obtain ⟨fsa, evsa, ha, hsome_a, hnone_a⟩ := cleanupOne_spec fs t?
  obtain ⟨fsb, evsb, hb, hsome_b, hnone_b⟩ := cleanupOne_spec fsa a?
  refine ⟨fsb, evsa ++ evsb, ?_, ?_⟩
  · simp [finallyCleanup, ha, hb]
  · intro p hp
    rcases hO : t? with _ | t
    · obtain ⟨hfa, hea⟩ := hnone_a hO
      rcases hp with h1 | h2
      · rw [hO] at h1
        cases h1
      · obtain ⟨hb1, hb2, hb3⟩ := hsome_b p h2
        refine ⟨hb1, ?_⟩
        rw [removeCount_append, hea, removeCount_nil, hb2, hfa]
        by_cases hex : fs.existsPath p = true
        · simp [hex, removeCount_single]
        · simp [bool_not_true hex, removeCount_nil]
    · obtain ⟨ha1, ha2, ha3⟩ := hsome_a t hO
      rcases hq : a? with _ | a
      · obtain ⟨hfb, heb⟩ := hnone_b hq
        rcases hp with h1 | h2
        · rw [hO] at h1
          injection h1 with h1
          subst h1
          refine ⟨by rw [hfb]; exact ha1, ?_⟩
          rw [removeCount_append, heb, removeCount_nil, ha2]
          by_cases hex : fs.existsPath t = true
          · simp [hex, removeCount_single]
          · simp [bool_not_true hex, removeCount_nil]
        · rw [hq] at h2
          cases h2
      · obtain ⟨hb1, hb2, hb3⟩ := hsome_b a hq
        have hfsa_other : ∀ x : Path, x ≠ t → fsa.existsPath x = fs.existsPath x := by
          intro x hx
          rw [ha3]
          by_cases hext : fs.existsPath t = true
          · rw [if_pos hext, existsPath_removeP]
            simp [beq_eq_false_iff_ne.mpr hx]
          · rw [if_neg hext]
        have goal_t : t? = some p → p = t := by
          intro h1
          rw [hO] at h1
          injection h1 with h1
          exact h1.symm
        by_cases hpt : p = t
        · subst hpt
          have hevsb_t : removeCount evsb p = 0 := by
            rw [hb2]
            by_cases hexa : fsa.existsPath a = true
            · rw [if_pos hexa, removeCount_single]
              by_cases hap : a = p
              · subst hap
                rw [ha1] at hexa
                cases hexa
              · rw [if_neg hap]
            · rw [if_neg hexa, removeCount_nil]
          refine ⟨?_, ?_⟩
          · rw [hb3]
            by_cases hexa : fsa.existsPath a = true
            · rw [if_pos hexa, existsPath_removeP, ha1]
              simp
            · rw [if_neg hexa]
              exact ha1
          · rw [removeCount_append, hevsb_t, ha2]
            by_cases hex : fs.existsPath p = true
            · simp [hex, removeCount_single]
            · simp [bool_not_true hex, removeCount_nil]
        · have hpa : p = a := by
            rcases hp with h1 | h2
            · exact absurd (goal_t h1) hpt
            · rw [hq] at h2
              injection h2 with h2
              exact h2.symm
          subst hpa
          have hfsa_p : fsa.existsPath p = fs.existsPath p := hfsa_other p hpt
          have hevsa_p : removeCount evsa p = 0 := by
            rw [ha2]
            by_cases hext : fs.existsPath t = true
            · rw [if_pos hext, removeCount_single, if_neg (fun hh => hpt hh.symm)]
            · rw [if_neg hext, removeCount_nil]
          refine ⟨hb1, ?_⟩
          rw [removeCount_append, hevsa_p, hb2, hfsa_p]
          by_cases hex : fs.existsPath p = true
          · simp [hex, removeCount_single]
          · simp [bool_not_true hex, removeCount_nil]

/-- The downloader's own trace contains no cleanup deletions (its internal
deletion of the intermediate file is a distinct `dlRemove` event). -/
theorem download_no_removeEv (env : Env) (fs : FS) (url : String) (p : Path) :
    removeCount (download_audio_from_url env fs url).2.2 p = 0 := by
  unfold download_audio_from_url
  rcases hy : env.ydl url with e | ⟨df, created⟩
  · rfl
  · simp only
    rcases hf : findWavFor (ydlFS created fs) df with _ | f
    · by_cases h : (convert_to_wav env (ydlFS created fs) df).2.existsPath df = true
      · simp only [h, if_true]
        rfl
      · simp only [bool_not_true h, Bool.false_eq_true, if_false]
        rfl
    · rfl

/-- The `try` body emits no cleanup-deletion events: `removeEv` events come
only from the `finally` block. -/
theorem pipelineTry_no_removeEv (env : Env) (fs : FS) (file : Option Upload)
    (video_url : Option String) (p : Path) :
    removeCount (pipelineTry env fs file video_url).evs p = 0 := by
  unfold pipelineTry
  rcases file with _ | up
  · rcases video_url with _ | u
    · rfl
    · by_cases h0 : (u == "") = true
      · simp only [h0, if_true]
        rfl
      · by_cases h1 : is_valid_url u = true
        · simp only [bool_not_true h0, Bool.false_eq_true, if_false, h1, if_true]
          have h2 := download_no_removeEv env fs u p
          unfold removeCount at h2 ⊢
          rcases hdl : (download_audio_from_url env fs u).1 with _ | ap
          · rw [List.countP_cons, h2]
            rfl
          · rw [List.countP_cons, h2]
            rfl
        · simp only [bool_not_true h0, Bool.false_eq_true, bool_not_true h1, if_false]
          rfl
  · dsimp only
    rcases hw1 : env.writeOutcome1 (path_join UPLOAD_DIR up.filename) with _ | e
    · rcases hw2 : env.writeOutcome2 (path_join UPLOAD_DIR up.filename) with _ | e
      · rcases hc : (convert_to_wav env
            ((fs.write (path_join UPLOAD_DIR up.filename)
                (ByteStream.mk up.content 0).readAll.1).write
              (path_join UPLOAD_DIR up.filename)
              (ByteStream.mk up.content 0).readAll.2.readAll.1)
            (path_join UPLOAD_DIR up.filename)).1 with _ | ap
        · rfl
        · rfl
      · rfl
    · rfl

/-- When cleanup succeeds, `assemble` returns the rendered 200 response, the
cleaned filesystem, and the concatenated trace. -/
theorem assemble_spec (r : TryOut) (fs2 : FS) (evs2 : List Ev)
    (h : finallyCleanup r.fs r.temp r.audio = Except.ok (fs2, evs2)) :
    assemble r = Except.ok (Response.mk 200
      (match r.res with
        | Except.ok t => t
        | Except.error _ => "")
      (match r.res with
        | Except.ok _ => none
        | Except.error (PyExn.http _ d) => some d
        | Except.error (PyExn.other e) => some ("An unexpected error occurred: " ++ e)),
      fs2, r.evs ++ evs2) := by
  unfold assemble
  rw [h]

/-! ## Concrete environments and inputs used by witnesses and
counterexamples -/

/-- The empty temp directory. -/
def fs0 : FS := FS.mk []

/-- A benign environment: decoding succeeds, yt-dlp raises a network error,
recognition succeeds, saving to disk succeeds. -/
def env0 : Env :=
  Env.mk (fun _ => true) (fun _ => [0]) (fun _ => YdlOutcome.raises "network is unreachable")
    (fun _ => RecogOutcome.success "hello world") (fun _ => none) (fun _ => none)

/-- An environment whose recognizer cannot understand the audio. -/
def envUnknown : Env :=
  Env.mk (fun _ => true) (fun _ => [0]) (fun _ => YdlOutcome.raises "network is unreachable")
    (fun _ => RecogOutcome.unknownValue) (fun _ => none) (fun _ => none)

/-- An environment where decoding fails (pydub raises on every file). -/
def envNoDecode : Env :=
  Env.mk (fun _ => false) (fun _ => [0]) (fun _ => YdlOutcome.raises "network is unreachable")
    (fun _ => RecogOutcome.unknownValue) (fun _ => none) (fun _ => none)

/-- An environment whose downloader produces only `clip.webm` (no direct WAV)
and whose decoder fails, exercising the fallback with failed normalization. -/
def envDlWebm : Env :=
  Env.mk (fun _ => false) (fun _ => [0])
    (fun _ => YdlOutcome.ok "temp_uploads/clip.webm" [("temp_uploads/clip.webm", [9])])
    (fun _ => RecogOutcome.unknownValue) (fun _ => none) (fun _ => none)

/-- An environment whose downloader produces `clip.mp3` (no direct WAV) and
whose decoder succeeds, exercising the fallback with successful
normalization. -/
def envDlMp3 : Env :=
  Env.mk (fun _ => true) (fun _ => [0])
    (fun _ => YdlOutcome.ok "temp_uploads/clip.mp3" [("temp_uploads/clip.mp3", [9])])
    (fun _ => RecogOutcome.success "some words") (fun _ => none) (fun _ => none)

/-- A small mp3 upload. -/
def upMp3 : Upload := Upload.mk "a.mp3" [1, 2]

/-- An upload with an unsupported extension. -/
def upTxt : Upload := Upload.mk "notes.txt" [1, 2]

/-- An upload whose filename contains a parent-directory segment. -/
def upEvil : Upload := Upload.mk "../evil.wav" [1, 2, 3]

/-! ## The claims -/

/-- C1: For every request to the transcription handler — success, caught
validation/acquisition error, or any other exception raised mid-pipeline —
the handler returns its rendered response (cleanup never raises); each
artifact path recorded in `temp_file_path`/`audio_file_path` no longer exists
when the handler returns; and the cleanup step deleted that path exactly once
when it was present when the `finally` block began, and zero times (a no-op)
when it was already absent. -/
theorem claimC1 (env : Env) (fs : FS) (file : Option Upload)
    (video_url : Option String) :
    isOkResp (transcribe_audio_video env fs file video_url) = true ∧
    ∀ p : Path,
      ((pipelineTry env fs file video_url).temp = some p ∨
        (pipelineTry env fs file video_url).audio = some p) →
      (fsOf (transcribe_audio_video env fs file video_url)).existsPath p = false ∧
      removeCount (evsOf (transcribe_audio_video env fs file video_url)) p =
        (if (pipelineTry env fs file video_url).fs.existsPath p then 1 else 0) := by
  obtain ⟨fs2, evs2, hceq, hspec⟩ :=
    finallyCleanup_spec (pipelineTry env fs file video_url).fs
      (pipelineTry env fs file video_url).temp
      (pipelineTry env fs file video_url).audio
  have hA := assemble_spec (pipelineTry env fs file video_url) fs2 evs2 hceq
  constructor
  · show isOkResp (assemble (pipelineTry env fs file video_url)) = true
    rw [hA]
    rfl
  · intro p hp
    obtain ⟨h1, h2⟩ := hspec p hp
    constructor
    · show (fsOf (assemble (pipelineTry env fs file video_url))).existsPath p = false
      rw [hA]
      exact h1
    · show removeCount (evsOf (assemble (pipelineTry env fs file video_url))) p = _
      rw [hA]
      show removeCount ((pipelineTry env fs file video_url).evs ++ evs2) p = _
      rw [removeCount_append, pipelineTry_no_removeEv, h2]
      exact Nat.zero_add _

/-- Witness for C1 at a concrete input: a successful `a.mp3` upload, whose
saved upload artifact is removed exactly once and is gone afterwards. -/
theorem claimC1_witness :
    (fsOf (transcribe_audio_video env0 fs0 (some upMp3) none)).existsPath
        "temp_uploads/a.mp3" = false ∧
    removeCount (evsOf (transcribe_audio_video env0 fs0 (some upMp3) none))
        "temp_uploads/a.mp3" =
      (if (pipelineTry env0 fs0 (some upMp3) none).fs.existsPath
          "temp_uploads/a.mp3" then 1 else 0) :=
  (claimC1 env0 fs0 (some upMp3) none).2 "temp_uploads/a.mp3" (Or.inl (by decide))

/-- C2: `transcribe_audio` always returns a plain string (its totality in the
embedding; in the source every exception is caught): the recognizer's text on
success, the fixed "could not understand audio" message when the backend
cannot interpret the audio, and a message embedding the underlying error for
request failures and any other exception. -/
theorem claimC2 (recog : Path → RecogOutcome) (p : Path) :
    (∀ t, recog p = RecogOutcome.success t → transcribe_audio recog p = t) ∧
    (recog p = RecogOutcome.unknownValue →
      transcribe_audio recog p = "Google Speech Recognition could not understand audio") ∧
    (∀ e, recog p = RecogOutcome.requestError e →
      transcribe_audio recog p =
        "Could not request results from Google Speech Recognition service; " ++ e) ∧
    (∀ e, recog p = RecogOutcome.otherError e →
      transcribe_audio recog p = "Error during transcription: " ++ e) := by
  refine ⟨?_, ?_, ?_, ?_⟩
  · intro t h
    simp [transcribe_audio, recognize_google, h]
  · intro h
    simp [transcribe_audio, recognize_google, h]
  · intro e h
    simp [transcribe_audio, recognize_google, h]
  · intro e h
    simp [transcribe_audio, recognize_google, h]

/-- Witness for C2 at a concrete input: a recognizer that cannot understand
the audio yields the fixed message as the returned text. -/
theorem claimC2_witness :
    transcribe_audio (fun _ => RecogOutcome.unknownValue) "temp_uploads/a.wav" =
      "Google Speech Recognition could not understand audio" :=
  (claimC2 (fun _ => RecogOutcome.unknownValue) "temp_uploads/a.wav").2.1 rfl

/-- C4: `is_valid_url` is a pure predicate on strings; it returns `true` on
the URL-shaped examples `https://example.com/video`, `http://localhost:8080/x`
and `https://203.0.113.5/a?b=1`, and `false` on `not a url` and
`http//missing-colon`; the match is case-insensitive (`HTTPS://EXAMPLE.COM`
is also accepted). -/
theorem claimC4 :
    is_valid_url "https://example.com/video" = true ∧
    is_valid_url "http://localhost:8080/x" = true ∧
    is_valid_url "https://203.0.113.5/a?b=1" = true ∧
    is_valid_url "not a url" = false ∧
    is_valid_url "http//missing-colon" = false ∧
    is_valid_url "HTTPS://EXAMPLE.COM/video" = true := by
  refine ⟨by decide, by decide, by decide, by decide, by decide, by decide⟩

/-- C3: For every request providing neither a file upload nor a (truthy)
video URL, the handler renders the error message "No file or video URL
provided.", the filesystem is exactly what it was before the request (no file
is created in or remains in the temp directory because of it), and no events
occur. -/
theorem claimC3 (env : Env) (fs : FS) (url? : Option String)
    (h : match url? with | none => True | some s => s = "") :
    respOf (transcribe_audio_video env fs none url?) =
      Response.mk 200 "" (some "No file or video URL provided.") ∧
    fsOf (transcribe_audio_video env fs none url?) = fs ∧
    evsOf (transcribe_audio_video env fs none url?) = [] := by
  rcases url? with _ | s
  · exact ⟨rfl, rfl, rfl⟩
  · have h' : s = "" := h
    subst h'
    exact ⟨rfl, rfl, rfl⟩

/-- Witness for C3 at the concrete empty request. -/
theorem claimC3_witness :
    respOf (transcribe_audio_video env0 fs0 none none) =
      Response.mk 200 "" (some "No file or video URL provided.") ∧
    fsOf (transcribe_audio_video env0 fs0 none none) = fs0 ∧
    evsOf (transcribe_audio_video env0 fs0 none none) = [] :=
  claimC3 env0 fs0 none trivial

/-- C5: For every request with no file upload and a non-empty video URL that
`is_valid_url` rejects, the handler renders "Invalid URL provided.", the
filesystem is untouched, and the trace is empty — in particular
`download_audio_from_url` is never invoked (no `downloadCall` event). -/
theorem claimC5 (env : Env) (fs : FS) (u : String)
    (h1 : is_valid_url u = false) (h2 : (u == "") = false) :
    respOf (transcribe_audio_video env fs none (some u)) =
      Response.mk 200 "" (some "Invalid URL provided.") ∧
    fsOf (transcribe_audio_video env fs none (some u)) = fs ∧
    evsOf (transcribe_audio_video env fs none (some u)) = [] ∧
    ∀ u', Ev.downloadCall u' ∉ evsOf (transcribe_audio_video env fs none (some u)) := by
  have hP : pipelineTry env fs none (some u) =
      TryOut.mk (Except.error (PyExn.http 400 "Invalid URL provided.")) none none fs [] := by
    unfold pipelineTry
    simp only [h2, Bool.false_eq_true, if_false, h1]
  have hT : transcribe_audio_video env fs none (some u) =
      assemble (TryOut.mk (Except.error (PyExn.http 400 "Invalid URL provided."))
        none none fs []) := by
    unfold transcribe_audio_video
    rw [hP]
  rw [hT]
  exact ⟨rfl, rfl, rfl, fun u' => List.not_mem_nil _⟩

/-- Witness for C5 at the concrete rejected URL "not a url". -/
theorem claimC5_witness :
    respOf (transcribe_audio_video env0 fs0 none (some "not a url")) =
      Response.mk 200 "" (some "Invalid URL provided.") ∧
    fsOf (transcribe_audio_video env0 fs0 none (some "not a url")) = fs0 ∧
    evsOf (transcribe_audio_video env0 fs0 none (some "not a url")) = [] ∧
    ∀ u', Ev.downloadCall u' ∉
      evsOf (transcribe_audio_video env0 fs0 none (some "not a url")) :=
  claimC5 env0 fs0 "not a url" (by decide) (by decide)

/-- C6: For every input path whose (lower-cased) extension is not in the
allow-list, `convert_to_wav` returns no artifact and leaves the filesystem
unchanged (it cannot raise in the embedding; in the source the body is fully
guarded); consequently a request uploading such a file renders "Could not
convert file to audio." and the saved upload no longer exists afterwards. -/
theorem claimC6 (env : Env) (fs : FS) (p : Path)
    (h : supportedExt (lowerStr (splitExt p).2) = false)
    (env2 : Env) (fs2 : FS) (up : Upload)
    (h2 : supportedExt (lowerStr (splitExt (path_join UPLOAD_DIR up.filename)).2) = false)
    (h3 : env2.writeOutcome1 (path_join UPLOAD_DIR up.filename) = none)
    (h4 : env2.writeOutcome2 (path_join UPLOAD_DIR up.filename) = none) :
    convert_to_wav env fs p = (none, fs) ∧
    respOf (transcribe_audio_video env2 fs2 (some up) none) =
      Response.mk 200 "" (some "Could not convert file to audio.") ∧
    (fsOf (transcribe_audio_video env2 fs2 (some up) none)).existsPath
      (path_join UPLOAD_DIR up.filename) = false := by
  have hgen : ∀ (envX : Env) (fsX : FS) (q : Path),
      supportedExt (lowerStr (splitExt q).2) = false →
      convert_to_wav envX fsX q = (none, fsX) := by
    intro envX fsX q hq
    unfold convert_to_wav
    simp only [hq, Bool.false_eq_true, if_false]
  refine ⟨hgen env fs p h, ?_⟩
  have hP : pipelineTry env2 fs2 (some up) none =
      TryOut.mk (Except.error (PyExn.http 400 "Could not convert file to audio."))
        (some (path_join UPLOAD_DIR up.filename)) none
        ((fs2.write (path_join UPLOAD_DIR up.filename)
            (ByteStream.mk up.content 0).readAll.1).write
          (path_join UPLOAD_DIR up.filename)
          (ByteStream.mk up.content 0).readAll.2.readAll.1)
        [Ev.convertCall (path_join UPLOAD_DIR up.filename)] := by
    unfold pipelineTry
    dsimp only
    rw [h3, h4, hgen env2 _ _ h2]
  have hex : ((fs2.write (path_join UPLOAD_DIR up.filename)
        (ByteStream.mk up.content 0).readAll.1).write
      (path_join UPLOAD_DIR up.filename)
      (ByteStream.mk up.content 0).readAll.2.readAll.1).existsPath
      (path_join UPLOAD_DIR up.filename) = true := by
    rw [existsPath_write]
    simp
  have hFC : finallyCleanup
      ((fs2.write (path_join UPLOAD_DIR up.filename)
          (ByteStream.mk up.content 0).readAll.1).write
        (path_join UPLOAD_DIR up.filename)
        (ByteStream.mk up.content 0).readAll.2.readAll.1)
      (some (path_join UPLOAD_DIR up.filename)) none =
      Except.ok
        (((fs2.write (path_join UPLOAD_DIR up.filename)
              (ByteStream.mk up.content 0).readAll.1).write
            (path_join UPLOAD_DIR up.filename)
            (ByteStream.mk up.content 0).readAll.2.readAll.1).removeP
          (path_join UPLOAD_DIR up.filename),
          [Ev.removeEv (path_join UPLOAD_DIR up.filename)]) := by
    unfold finallyCleanup cleanupOne os_remove
    simp only [hex, if_true]
    simp
  have hT : transcribe_audio_video env2 fs2 (some up) none =
      assemble (pipelineTry env2 fs2 (some up) none) := rfl
  have hA := assemble_spec (pipelineTry env2 fs2 (some up) none)
  rw [hP] at hA
  have hA2 := hA _ _ hFC
  rw [hT, hP, hA2]
  constructor
  · rfl
  · show (((fs2.write (path_join UPLOAD_DIR up.filename)
          (ByteStream.mk up.content 0).readAll.1).write
        (path_join UPLOAD_DIR up.filename)
        (ByteStream.mk up.content 0).readAll.2.readAll.1).removeP
      (path_join UPLOAD_DIR up.filename)).existsPath
      (path_join UPLOAD_DIR up.filename) = false
    rw [existsPath_removeP]
    simp

/-- Witness for C6 at a concrete input: an `.xyz` path for the converter and
a `.txt` upload for the handler. -/
theorem claimC6_witness :
    convert_to_wav env0 fs0 "temp_uploads/song.xyz" = (none, fs0) ∧
    respOf (transcribe_audio_video env0 fs0 (some upTxt) none) =
      Response.mk 200 "" (some "Could not convert file to audio.") ∧
    (fsOf (transcribe_audio_video env0 fs0 (some upTxt) none)).existsPath
      (path_join UPLOAD_DIR upTxt.filename) = false :=
  claimC6 env0 fs0 "temp_uploads/song.xyz" (by decide) env0 fs0 upTxt
    (by decide) rfl rfl

/-- A filesystem holding a dotted-name media file, for the C7 example. -/
def fsMySong : FS := FS.mk [("temp_uploads/my.song.mp3", [1])]

/-- C7 counterexample: the normalization of `my.song.mp3` is named `my.wav`
(everything before the FIRST dot of the base name), not `my.song.wav` as the
claim states. -/
theorem claimC7_counterexample :
    (convert_to_wav env0 fsMySong "temp_uploads/my.song.mp3").1 =
      some "temp_uploads/my.wav" ∧
    ¬ (convert_to_wav env0 fsMySong "temp_uploads/my.song.mp3").1 =
      some "temp_uploads/my.song.wav" :=
  ⟨by decide, by decide⟩

/-- C7 (amended): for every input path with a supported extension on which
decoding succeeds, the Format Normalizer's output path is the temp directory
joined with the portion of the input's base name BEFORE ITS FIRST DOT plus
`.wav`, and that file exists afterwards.  (For `my.song.mp3` this is
`my.wav`, not `my.song.wav`.) -/
theorem claimC7_amended (env : Env) (fs : FS) (p : Path)
    (h1 : supportedExt (lowerStr (splitExt p).2) = true)
    (h2 : fs.existsPath p = true)
    (h3 : env.decodeOk p = true) :
    (convert_to_wav env fs p).1 =
      some (path_join UPLOAD_DIR
        (String.mk ((basenameStr p).data.takeWhile (fun c => c != '.')) ++ ".wav")) ∧
    (convert_to_wav env fs p).2.existsPath
      (path_join UPLOAD_DIR
        (String.mk ((basenameStr p).data.takeWhile (fun c => c != '.')) ++ ".wav")) =
      true := by
  unfold convert_to_wav
  simp only [h1, if_true, h2, h3, Bool.and_self, Bool.true_and]
  constructor
  · rfl
  · rw [existsPath_write]
    simp [output_wav_path]

/-- Witness for the amended C7 at the concrete dotted input `my.song.mp3`. -/
theorem claimC7_amended_witness :
    (convert_to_wav env0 fsMySong "temp_uploads/my.song.mp3").1 =
      some (path_join UPLOAD_DIR
        (String.mk ((basenameStr "temp_uploads/my.song.mp3").data.takeWhile
          (fun c => c != '.')) ++ ".wav")) ∧
    (convert_to_wav env0 fsMySong "temp_uploads/my.song.mp3").2.existsPath
      (path_join UPLOAD_DIR
        (String.mk ((basenameStr "temp_uploads/my.song.mp3").data.takeWhile
          (fun c => c != '.')) ++ ".wav")) = true :=
  claimC7_amended env0 fsMySong "temp_uploads/my.song.mp3" (by decide) (by decide) rfl

/-- C8 counterexample: with a downloaded `clip.webm`, no matching WAV in the
temp directory, and failing normalization, the downloader returns no artifact
(normalization failed) yet the intermediate downloaded file HAS been deleted
— refuting "it is not deleted when normalization fails". -/
theorem claimC8_counterexample :
    (download_audio_from_url envDlWebm fs0 "https://example.com/v").1 = none ∧
    (download_audio_from_url envDlWebm fs0 "https://example.com/v").2.1.existsPath
      "temp_uploads/clip.webm" = false :=
  ⟨by decide, by decide⟩

/-- C8 (amended): in `download_audio_from_url`, when no file in the temp
directory matches the downloaded item's base name with the `.wav` suffix, the
Format Normalizer is run on the file the backend produced (its result is
returned and a `convertCall` event is emitted), and the intermediate
downloaded file is deleted whenever it still exists after the normalization
attempt — regardless of whether normalization succeeded. -/
theorem claimC8_amended (env : Env) (fs : FS) (url : String) (df : Path)
    (created : List (Path × Content))
    (h1 : env.ydl url = YdlOutcome.ok df created)
    (h2 : findWavFor (ydlFS created fs) df = none) :
    (download_audio_from_url env fs url).1 =
      (convert_to_wav env (ydlFS created fs) df).1 ∧
    Ev.convertCall df ∈ (download_audio_from_url env fs url).2.2 ∧
    (download_audio_from_url env fs url).2.1.existsPath df = false := by
  unfold download_audio_from_url
  rw [h1]
  dsimp only
  rw [h2]
  by_cases hx : (convert_to_wav env (ydlFS created fs) df).2.existsPath df = true
  · simp only [hx, if_true]
    refine ⟨trivial, by simp, ?_⟩
    rw [existsPath_removeP]
    simp
  · simp only [bool_not_true hx, Bool.false_eq_true, if_false]
    exact ⟨trivial, by simp, trivial⟩

/-- Witness for the amended C8 at the concrete failing download. -/
theorem claimC8_amended_witness :
    (download_audio_from_url envDlWebm fs0 "https://example.com/v").1 =
      (convert_to_wav envDlWebm (ydlFS [("temp_uploads/clip.webm", [9])] fs0)
        "temp_uploads/clip.webm").1 ∧
    Ev.convertCall "temp_uploads/clip.webm" ∈
      (download_audio_from_url envDlWebm fs0 "https://example.com/v").2.2 ∧
    (download_audio_from_url envDlWebm fs0 "https://example.com/v").2.1.existsPath
      "temp_uploads/clip.webm" = false :=
  claimC8_amended envDlWebm fs0 "https://example.com/v" "temp_uploads/clip.webm"
    [("temp_uploads/clip.webm", [9])] rfl (by decide)

/-- Shape of the `try` body's outcome: every `HTTPException` it raises is a
400 with one of the four upstream validation/acquisition messages, and
whenever an audio artifact was acquired the outcome is the recognizer's text
(the transcription stage itself never raises). -/
theorem pipelineTry_shape (env : Env) (fs : FS) (file : Option Upload)
    (video_url : Option String) :
    (∀ st d, (pipelineTry env fs file video_url).res = Except.error (PyExn.http st d) →
      st = 400 ∧ (d = "No file or video URL provided." ∨ d = "Invalid URL provided." ∨
        d = "Could not convert file to audio." ∨
        d = "Could not download audio from the provided URL.")) ∧
    (∀ p, (pipelineTry env fs file video_url).audio = some p →
      (pipelineTry env fs file video_url).res =
        Except.ok (transcribe_audio env.recog p)) := by
  unfold pipelineTry
  rcases file with _ | up
  · rcases video_url with _ | u
    · constructor
      · intro st d h
        simp only [Except.error.injEq, PyExn.http.injEq] at h
        exact ⟨h.1.symm, Or.inl h.2.symm⟩
      · intro p h
        simp at h
    · by_cases h0 : (u == "") = true
      · simp only [h0, if_true]
        constructor
        · intro st d h
          simp only [Except.error.injEq, PyExn.http.injEq] at h
          exact ⟨h.1.symm, Or.inl h.2.symm⟩
        · intro p h
          simp at h
      · by_cases h1 : is_valid_url u = true
        · simp only [bool_not_true h0, Bool.false_eq_true, if_false, h1, if_true]
          rcases hdl : (download_audio_from_url env fs u).1 with _ | ap
          · constructor
            · intro st d h
              simp only [Except.error.injEq, PyExn.http.injEq] at h
              exact ⟨h.1.symm, Or.inr (Or.inr (Or.inr h.2.symm))⟩
            · intro p h
              simp at h
          · constructor
            · intro st d h
              simp at h
            · intro p h
              simp only [Option.some.injEq] at h
              subst h
              rfl
        · simp only [bool_not_true h0, Bool.false_eq_true, bool_not_true h1, if_false]
          constructor
          · intro st d h
            simp only [Except.error.injEq, PyExn.http.injEq] at h
            exact ⟨h.1.symm, Or.inr (Or.inl h.2.symm)⟩
          · intro p h
            simp at h
  · dsimp only
    rcases hw1 : env.writeOutcome1 (path_join UPLOAD_DIR up.filename) with _ | e
    · rcases hw2 : env.writeOutcome2 (path_join UPLOAD_DIR up.filename) with _ | e
      · rcases hc : (convert_to_wav env
            ((fs.write (path_join UPLOAD_DIR up.filename)
                (ByteStream.mk up.content 0).readAll.1).write
              (path_join UPLOAD_DIR up.filename)
              (ByteStream.mk up.content 0).readAll.2.readAll.1)
            (path_join UPLOAD_DIR up.filename)).1 with _ | ap
        · constructor
          · intro st d h
            simp only [Except.error.injEq, PyExn.http.injEq] at h
            exact ⟨h.1.symm, Or.inr (Or.inr (Or.inl h.2.symm))⟩
          · intro p h
            simp at h
        · constructor
          · intro st d h
            simp at h
          · intro p h
            simp only [Option.some.injEq] at h
            subst h
            rfl
      · constructor
        · intro st d h
          simp at h
        · intro p h
          simp at h
    · constructor
      · intro st d h
        simp at h
      · intro p h
        simp at h

/-- C9: the handler's HTTP-level response is always a 200; the only
`HTTPException`s raised (and then surfaced as error messages) come from
upstream validation/acquisition — "no input", "invalid URL", "could not
convert", "could not download" — all with status 400; once an audio artifact
is acquired, the outcome is the recognizer's result (the transcription stage
never produces an HTTP-level error), and that text is displayed with no error
message. -/
theorem claimC9 (env : Env) (fs : FS) (file : Option Upload)
    (video_url : Option String) :
    (respOf (transcribe_audio_video env fs file video_url)).status = 200 ∧
    (∀ st d, (pipelineTry env fs file video_url).res = Except.error (PyExn.http st d) →
      st = 400 ∧ (d = "No file or video URL provided." ∨ d = "Invalid URL provided." ∨
        d = "Could not convert file to audio." ∨
        d = "Could not download audio from the provided URL.")) ∧
    (∀ p, (pipelineTry env fs file video_url).audio = some p →
      (pipelineTry env fs file video_url).res =
        Except.ok (transcribe_audio env.recog p)) ∧
    (∀ t, (pipelineTry env fs file video_url).res = Except.ok t →
      (respOf (transcribe_audio_video env fs file video_url)).error_message = none ∧
      (respOf (transcribe_audio_video env fs file video_url)).transcribed_text = t) := by
  obtain ⟨fs2, evs2, hceq, hspec⟩ :=
    finallyCleanup_spec (pipelineTry env fs file video_url).fs
      (pipelineTry env fs file video_url).temp
      (pipelineTry env fs file video_url).audio
  have hA := assemble_spec (pipelineTry env fs file video_url) fs2 evs2 hceq
  have hT : transcribe_audio_video env fs file video_url =
      assemble (pipelineTry env fs file video_url) := rfl
  obtain ⟨hshape1, hshape2⟩ := pipelineTry_shape env fs file video_url
  refine ⟨?_, hshape1, hshape2, ?_⟩
  · rw [hT, hA]
    rfl
  · intro t h
    rw [hT, hA]
    dsimp only [respOf]
    rw [h]
    exact ⟨rfl, rfl⟩

/-- Witness for C9: the empty request raises the 400 "no input" exception,
whose detail is among the upstream messages. -/
theorem claimC9_witness :
    400 = 400 ∧
    ("No file or video URL provided." = "No file or video URL provided." ∨
      "No file or video URL provided." = "Invalid URL provided." ∨
      "No file or video URL provided." = "Could not convert file to audio." ∨
      "No file or video URL provided." = "Could not download audio from the provided URL.") :=
  (claimC9 env0 fs0 none none).2.1 400 "No file or video URL provided." rfl

/-- C10: evaluated at the failing input (an upload named `../evil.wav` with
bytes `[1, 2, 3]`).  The path-traversal half of the claim HOLDS: the save path
is the unsanitized join `temp_uploads/../evil.wav`, which resolves to
`evil.wav`, outside the temp directory.  The byte-for-byte half FAILS on the
code: the duplicated save block (lines 47-50) re-opens the file with `"wb"`
(truncating it) and `copyfileobj` re-reads from the already-exhausted upload
stream, so the file persisted when conversion is attempted is EMPTY rather
than the upload's bytes. -/
theorem claimC10 :
    path_join UPLOAD_DIR upEvil.filename = "temp_uploads/../evil.wav" ∧
    normpathRel (path_join UPLOAD_DIR upEvil.filename) = "evil.wav" ∧
    "temp_uploads/".data.isPrefixOf
      (normpathRel (path_join UPLOAD_DIR upEvil.filename)).data = false ∧
    (ByteStream.mk upEvil.content 0).readAll.1 = upEvil.content ∧
    (ByteStream.mk upEvil.content 0).readAll.2.readAll.1 = [] ∧
    (pipelineTry envNoDecode fs0 (some upEvil) none).fs.read
      (path_join UPLOAD_DIR upEvil.filename) = some [] ∧
    ¬ (pipelineTry envNoDecode fs0 (some upEvil) none).fs.read
      (path_join UPLOAD_DIR upEvil.filename) = some upEvil.content := by
  refine ⟨by decide, by decide, by decide, by decide, by decide, by decide, by decide⟩

end PhraseCollector
